import Mathlib

/-!
# Verification of `app.js`

A shallow embedding of the application bootstrap `src/app.js`: the upload
policy (`fileStorage`, `fileFilter`), the two request middlewares written in
the file (view-local injector, user hydrator), the error terminal, the
registered middleware pipeline with the dispatch rule of Express, and the
startup sequence.

Callbacks are embedded as traces: a function that calls `cb` returns the list
of calls it makes, in order.  Promises are embedded by their settled state.
Third-party middlewares (helmet, multer, csurf, the routers, ...) are not part
of the file; their behaviour is a parameter of the dispatcher.
-/

namespace AppJs

/-! ## JavaScript values used by the file -/

/-- The JavaScript values that occur in `app.js`: session fields, environment
variables and the port literal. -/
inductive JsVal where
  | undefined
  | null
  | bool (b : Bool)
  | num (n : Nat)
  | str (s : String)
  deriving DecidableEq, Repr

/-- JavaScript `ToBoolean` on the values above. -/
def JsVal.truthy : JsVal → Bool
  | .undefined => false
  | .null => false
  | .bool b => b
  | .num n => n != 0
  | .str s => s != ""

/-- JavaScript `a || b`. -/
def JsVal.or (a b : JsVal) : JsVal :=
  if a.truthy then a else b

/-- JavaScript `String(v)` as used by template literals. -/
def JsVal.toStr : JsVal → String
  | .undefined => "undefined"
  | .null => "null"
  | .bool b => if b then "true" else "false"
  | .num n => toString n
  | .str s => s

/-- A JavaScript error object: its `name` and its `message`. -/
structure JsError where
  name : String
  message : String
  deriving DecidableEq, Repr

/-- The string `String(err)` of an error object, as `Error.prototype.toString`
builds it: the message alone when the name is empty, the name alone when the
message is empty, and otherwise the name, `: ` and the message. -/
def JsError.toStr (e : JsError) : String :=
  if e.name = "" then e.message
  else if e.message = "" then e.name
  else e.name ++ ": " ++ e.message

/-- The object `new Error(err)`: an `Error` whose message is `String(err)`. -/
def newError (err : JsError) : JsError :=
  { name := "Error", message := err.toStr }

/-- The `TypeError` raised by reading property `prop` of `undefined` (in the
wording of current Node versions). -/
def typeErrorReading (prop : String) : JsError :=
  { name := "TypeError"
    message := "Cannot read properties of undefined (reading '" ++ prop ++ "')" }

/-- The `TypeError` raised by calling a value that is not a function. -/
def typeErrorNotFunction (what : String) : JsError :=
  { name := "TypeError", message := what ++ " is not a function" }

/-- A settled promise: resolved with a value or rejected with an error. -/
inductive Settled (α : Type) where
  | resolved (v : α)
  | rejected (err : JsError)
  deriving DecidableEq, Repr

/-! ## Request and response -/

/-- A truthy `req.session.user`; the file reads its `_id` (`undefined` when
the value has no such property). -/
structure SessionUser where
  _id : JsVal
  deriving DecidableEq, Repr

/-- The session object `req.session`.  A session on which `isLoggedIn` was
never written has `isLoggedIn = undefined`; `user = none` is a falsy
`req.session.user`. -/
structure Session where
  isLoggedIn : JsVal
  user : Option SessionUser
  deriving DecidableEq, Repr

/-- A user document as returned by `User.findById`: its `_id` and its other
fields. -/
structure User where
  _id : JsVal
  fields : List (String × JsVal)
  deriving DecidableEq, Repr

/-- The parts of the request the file reads or writes.  `session = none` is a
request on which the session middleware has not run (`req.session` is
`undefined`); `csrfToken` is what `req.csrfToken()` returns, `none` when csurf
has not attached the function; `user = none` is a request without
`req.user`. -/
structure Req where
  path : String
  session : Option Session
  csrfToken : Option String
  user : Option User
  deriving DecidableEq, Repr

/-- A call `res.render(name, locals)` as made by the error terminal. -/
structure View where
  name : String
  pageTitle : String
  path : String
  isAuthenticated : JsVal
  deriving DecidableEq, Repr

/-- The parts of the response the file writes: the status code,
`res.locals.isAuthenticated`, `res.locals.csrfToken` (`none` while
unassigned) and the rendered view. -/
structure Res where
  statusCode : Nat
  localIsAuthenticated : Option JsVal
  localCsrfToken : Option String
  rendered : Option View
  deriving DecidableEq, Repr

/-- How a middleware hands control back: it called `next()` (`next none`) or
`next(err)` (`next (some err)`), it threw, or it did neither (it answered
the request, or left it pending). -/
inductive Signal where
  | next (err : Option JsError)
  | threw (err : JsError)
  | stop
  deriving DecidableEq, Repr

/-- The result of running one middleware. -/
structure Step where
  req : Req
  res : Res
  signal : Signal
  deriving DecidableEq, Repr

/-! ## Upload policy (`app.js` lines 40-60) -/

/-- The fields of multer's file object that the file reads. -/
structure UploadFile where
  originalname : String
  mimetype : String
  deriving DecidableEq, Repr

/-- One invocation `cb(err, value)` of a node-style callback. -/
structure CbCall (α : Type) where
  err : Option JsError
  value : α
  deriving DecidableEq, Repr

/-- The `destination` function of `fileStorage`: `cb(null, 'images')`. -/
def destination (_req : Req) (_file : UploadFile) : List (CbCall String) :=
  [⟨none, "images"⟩]

/-- The `filename` function of `fileStorage`: `cb(null, new Date().toISOString()
+ '-' + file.originalname)`.  `isoNow` is the value of
`new Date().toISOString()`. -/
def filename (isoNow : String) (_req : Req) (file : UploadFile) : List (CbCall String) :=
  [⟨none, isoNow ++ "-" ++ file.originalname⟩]

/-- The condition of the `if` in `fileFilter`. -/
def allowedMime (file : UploadFile) : Bool :=
  file.mimetype == "image/png" ||
  file.mimetype == "image/jpg" ||
  file.mimetype == "image/jpeg"

/-- The function `fileFilter`: inside the `if`, `cb(null, true)`; the `if` has
no `else` and no `return`, so control continues to the unconditional
`cb(null, false)`.  The result is the list of callback invocations in
order. -/
def fileFilter (_req : Req) (file : UploadFile) : List (CbCall Bool) :=
  (if allowedMime file then [⟨none, true⟩] else []) ++ [⟨none, false⟩]

/-! ## The middlewares written in `app.js` -/

/-- The view-local injector (lines 116-123):
`res.locals.isAuthenticated = req.session.isLoggedIn;
 res.locals.csrfToken = req.csrfToken(); next();` -/
def viewLocals (req : Req) (res : Res) : Step :=
  match req.session with
  | none => ⟨req, res, .threw (typeErrorReading "isLoggedIn")⟩
  | some s =>
    let res1 := { res with localIsAuthenticated := some s.isLoggedIn }
    match req.csrfToken with
    | none => ⟨req, res1, .threw (typeErrorNotFunction "req.csrfToken")⟩
    | some t => ⟨req, { res1 with localCsrfToken := some t }, .next none⟩

/-- The user hydrator (lines 125-145).  `findById` is `User.findById` with
the promise it returns taken in its settled state; a promise resolved with
`none` is a lookup that found no document (`null`). -/
def userHydrator (findById : JsVal → Settled (Option User)) (req : Req) (res : Res) : Step :=
  match req.session with
  | none => ⟨req, res, .threw (typeErrorReading "user")⟩
  | some s =>
    match s.user with
    | none => ⟨req, res, .next none⟩
    | some su =>
      match findById su._id with
      | .resolved none => ⟨req, res, .next none⟩
      | .resolved (some user) => ⟨{ req with user := some user }, res, .next none⟩
      | .rejected err => ⟨req, res, .next (some (newError err))⟩

/-- The error terminal (lines 155-169):
`res.status(500).render('500', {pageTitle, path, isAuthenticated:
req.session.isLoggedIn})`.  JavaScript evaluates the callee `res.status(500)`
before the argument object, so the status is set before
`req.session.isLoggedIn` is read. -/
def errorTerminal (_error : JsError) (req : Req) (res : Res) : Step :=
  let res1 := { res with statusCode := 500 }
  match req.session with
  | none => ⟨req, res1, .threw (typeErrorReading "isLoggedIn")⟩
  | some s =>
    ⟨req, { res1 with rendered := some ⟨"500", "Error", "/500", s.isLoggedIn⟩ }, .stop⟩

/-! ## The registered pipeline (lines 75-169) and its dispatch -/

/-- The middlewares passed to `app.use`, one constructor per call. -/
inductive Stage where
  | helmet
  | compression
  | morgan
  | urlencoded
  | multerSingle
  | staticPublic
  | staticImages
  | session
  | csrfProtection
  | flash
  | viewLocals
  | userHydrator
  | adminRoutes
  | shopRoutes
  | authRoutes
  | get500
  | get404
  | errorTerminal
  deriving DecidableEq, Repr

/-- One `app.use([mount,] fn)`: the mount path (`/` when none is given) and
the middleware. -/
structure Layer where
  mount : String
  stage : Stage
  deriving DecidableEq, Repr

/-- The calls to `app.use` in the order the file makes them. -/
def pipeline : List Layer :=
  [ ⟨"/", .helmet⟩,
    ⟨"/", .compression⟩,
    ⟨"/", .morgan⟩,
    ⟨"/", .urlencoded⟩,
    ⟨"/", .multerSingle⟩,
    ⟨"/", .staticPublic⟩,
    ⟨"/images", .staticImages⟩,
    ⟨"/", .session⟩,
    ⟨"/", .csrfProtection⟩,
    ⟨"/", .flash⟩,
    ⟨"/", .viewLocals⟩,
    ⟨"/", .userHydrator⟩,
    ⟨"/admin", .adminRoutes⟩,
    ⟨"/", .shopRoutes⟩,
    ⟨"/", .authRoutes⟩,
    ⟨"/500", .get500⟩,
    ⟨"/", .get404⟩,
    ⟨"/", .errorTerminal⟩ ]

/-- The position of a stage in the registered pipeline. -/
def stageIndex (s : Stage) : Nat :=
  (pipeline.map Layer.stage).indexOf s

/-- Modelled from the spec: the number of declared parameters of the
middlewares that are not written in the file (the library middlewares, the
routers of `./routes/*` and the handlers of `./controllers/error`).  The spec
describes each of them as an ordinary request stage (security headers, logger,
body decoder, upload handler, static server, session, CSRF guard, flash, route
groups, 404 handler, `/500` page), so each takes `(req, res, next)`. -/
def importedArity (_s : Stage) : Nat := 3

/-- The number of declared parameters (`fn.length`) of each middleware: the
view-local injector and the user hydrator are written `(req, res, next)`, the
last `app.use` passes `(error, req, res, next)`. -/
def Stage.arity : Stage → Nat
  | .viewLocals => 3
  | .userHydrator => 3
  | .errorTerminal => 4
  | s => importedArity s

/-- Express treats a middleware as an error handler exactly when the function
declares four parameters. -/
def Stage.isErrorHandler (s : Stage) : Bool :=
  s.arity == 4

/-- The stage of the spec's system overview (1 to 12) each registered
middleware belongs to. -/
def Stage.specStage : Stage → Nat
  | .helmet => 1
  | .compression => 1
  | .morgan => 2
  | .urlencoded => 3
  | .multerSingle => 4
  | .staticPublic => 5
  | .staticImages => 5
  | .session => 6
  | .csrfProtection => 7
  | .flash => 8
  | .viewLocals => 9
  | .userHydrator => 10
  | .adminRoutes => 11
  | .shopRoutes => 11
  | .authRoutes => 11
  | .get500 => 11
  | .get404 => 11
  | .errorTerminal => 12

/-- The handlers of the spec's stage 11: the three route groups, the `/500`
page and the 404 handler. -/
def Stage.isRoute : Stage → Bool
  | .adminRoutes => true
  | .shopRoutes => true
  | .authRoutes => true
  | .get500 => true
  | .get404 => true
  | _ => false

/-- What the file takes from outside: the behaviour of the third-party
middlewares and routers, Express's matching of a mount path against the
request path, and the database lookup. -/
structure Lib where
  handle : Stage → Req → Res → Step
  pathMatch : String → String → Bool
  findById : JsVal → Settled (Option User)

/-- A layer mounted at `/` matches every request; another mount path is
matched by Express. -/
def Layer.matchesReq (lib : Lib) (l : Layer) (req : Req) : Bool :=
  l.mount == "/" || lib.pathMatch l.mount req.path

/-- Invoke the middleware of a stage: the three written in the file are the
definitions above, the others come from `lib`. -/
def invoke (lib : Lib) (stage : Stage) (err : Option JsError) (req : Req) (res : Res) : Step :=
  match stage, err with
  | .viewLocals, _ => viewLocals req res
  | .userHydrator, _ => userHydrator lib.findById req res
  | .errorTerminal, some e => errorTerminal e req res
  | s, _ => lib.handle s req res

/-- A middleware that was invoked, with the way it handed control back. -/
structure Event where
  stage : Stage
  signal : Signal
  deriving DecidableEq, Repr

/-- How a dispatch ends: a middleware did not call `next`, or the layers
were exhausted (Express's final handler takes over, with the pending error
if there is one). -/
inductive Ending where
  | stopped
  | exhausted (err : Option JsError)
  deriving DecidableEq, Repr

/-- The result of dispatching a request through a list of layers. -/
structure Outcome where
  events : List Event
  req : Req
  res : Res
  ending : Ending
  deriving DecidableEq, Repr

/-- Express's router loop.  Layers whose mount path does not match are
skipped; with a pending error the layers that are not error handlers are
skipped, without one the error handlers are; an exception thrown by a
middleware is caught and becomes the pending error. -/
def run (lib : Lib) : List Layer → Option JsError → Req → Res → Outcome
  | [], err, req, res => ⟨[], req, res, .exhausted err⟩
  | l :: rest, err, req, res =>
    if l.matchesReq lib req && (err.isSome == l.stage.isErrorHandler) then
      let st := invoke lib l.stage err req res
      match st.signal with
      | .next e =>
        let out := run lib rest e st.req st.res
        { out with events := ⟨l.stage, st.signal⟩ :: out.events }
      | .threw e =>
        let out := run lib rest (some e) st.req st.res
        { out with events := ⟨l.stage, st.signal⟩ :: out.events }
      | .stop => ⟨[⟨l.stage, .stop⟩], st.req, st.res, .stopped⟩
    else
      run lib rest err req res

/-- The layers from the first one holding `stage` onwards. -/
def pipelineFrom (stage : Stage) : List Layer :=
  pipeline.dropWhile (fun l => l.stage != stage)

/-! ## Startup (lines 24-32 and 171-195) -/

/-- The environment variables the file reads; `none` is a variable that is
not set. -/
structure Env where
  MONGO_USER : Option String
  MONGO_PASSWORD : Option String
  MONGO_DB : Option String
  PORT : Option String
  deriving DecidableEq, Repr

/-- The value of `process.env.X`: a string, or `undefined` when `X` is not
set. -/
def envVal : Option String → JsVal
  | none => .undefined
  | some s => .str s

/-- The template literal `MONGODB_URI`. -/
def MONGODB_URI (env : Env) : String :=
  "mongodb+srv://" ++ (envVal env.MONGO_USER).toStr ++ ":" ++
    (envVal env.MONGO_PASSWORD).toStr ++ "@cluster0.7bstu.mongodb.net/" ++
    (envVal env.MONGO_DB).toStr ++ "?retryWrites=true&w=majority"

/-- The argument of `app.listen`: `process.env.PORT || 3000`. -/
def listenPort (env : Env) : JsVal :=
  (envVal env.PORT).or (.num 3000)

/-- The calls the startup code makes to the outside. -/
inductive Effect where
  | newStore (uri : String) (collection : String)
  | connect (uri : String)
  | consoleLog (msg : String)
  | consoleLogError (err : JsError)
  | listen (port : JsVal)
  deriving DecidableEq, Repr

/-- The startup sequence: the session store is constructed, then
`mongoose.connect(MONGODB_URI).then(...).catch(...)`.  `connected` is the
settled state of the promise `mongoose.connect` returns; `listenThrows` is
the exception `app.listen` raises synchronously, if any (the `catch` of the
chain also receives what the `then` callback throws). -/
def startup (env : Env) (connected : Settled Unit) (listenThrows : Option JsError) : List Effect :=
  [.newStore (MONGODB_URI env) "sessions", .connect (MONGODB_URI env)] ++
    match connected with
    | .resolved _ =>
      [.consoleLog "MONGODB Connected!", .listen (listenPort env)] ++
        match listenThrows with
        | none => []
        | some e => [.consoleLogError e]
    | .rejected err => [.consoleLogError err]

/-- Is the effect a call of `mongoose.connect`? -/
def Effect.isConnect : Effect → Bool
  | .connect _ => true
  | _ => false

/-- Is the effect a call of `app.listen`? -/
def Effect.isListen : Effect → Bool
  | .listen _ => true
  | _ => false

/-! ## Sample inputs -/

/-- A request as it enters the pipeline: no session, no CSRF function, no
user. -/
def incomingReq : Req :=
  { path := "/", session := none, csrfToken := none, user := none }

/-- A response nothing has written to yet. -/
def freshRes : Res :=
  { statusCode := 200, localIsAuthenticated := none, localCsrfToken := none, rendered := none }

/-- A session as the session middleware creates it for a request without a
session cookie: nothing has been written to it. -/
def freshSession : Session :=
  { isLoggedIn := .undefined, user := none }

/-- Sample third-party behaviour: the session middleware attaches a fresh
session to a request that carries none, csurf attaches `req.csrfToken`, the
shop router answers, every other middleware calls `next()`. -/
def sampleHandle : Stage → Req → Res → Step
  | .session, req, res =>
    match req.session with
    | none => ⟨{ req with session := some freshSession }, res, .next none⟩
    | some _ => ⟨req, res, .next none⟩
  | .csrfProtection, req, res => ⟨{ req with csrfToken := some "token" }, res, .next none⟩
  | .shopRoutes, req, res => ⟨req, res, .stop⟩
  | _, req, res => ⟨req, res, .next none⟩

/-- The single user document of the sample database. -/
def sampleUser : User :=
  { _id := .str "u1", fields := [("email", .str "u1@example.com")] }

/-- A logged-in session referencing the user `u1`. -/
def loggedInSession : Session :=
  { isLoggedIn := .bool true, user := some ⟨.str "u1"⟩ }

/-- Sample library: `sampleHandle`, prefix matching of mount paths, and a
database holding the single user `u1`. -/
def sampleLib : Lib :=
  { handle := sampleHandle
    pathMatch := fun mount path => mount.isPrefixOf path
    findById := fun id =>
      if id = .str "u1" then .resolved (some sampleUser) else .resolved none }

/-- Sample library in which the upload handler forwards an error (multer does
so for a file sent under an unexpected field name). -/
def uploadFailsLib : Lib :=
  { sampleLib with
    handle := fun s req res =>
      match s with
      | .multerSingle => ⟨req, res, .next (some ⟨"MulterError", "Unexpected field"⟩)⟩
      | _ => sampleHandle s req res }

/-- Sample library whose database lookup fails. -/
def dbDownLib : Lib :=
  { sampleLib with findById := fun _ => .rejected ⟨"MongoError", "connection lost"⟩ }

/-! ## Theorems: upload policy -/

/-- The condition of `fileFilter` holds exactly for the three listed MIME
types. -/
theorem allowedMime_iff (file : UploadFile) :
    allowedMime file = true ↔
      (file.mimetype = "image/png" ∨ file.mimetype = "image/jpg" ∨
        file.mimetype = "image/jpeg") := by
  simp [allowedMime, or_assoc]

/-- C1 (the code departs from the claim): for a file whose MIME type is one
of the three allowed ones, `fileFilter` first delivers `(null, true)` and then
also delivers the reject decision `(null, false)`. -/
theorem fileFilter_allowed_also_rejects (req : Req) (file : UploadFile)
    (h : file.mimetype = "image/png" ∨ file.mimetype = "image/jpg" ∨
      file.mimetype = "image/jpeg") :
    fileFilter req file = [⟨none, true⟩, ⟨none, false⟩] ∧
      (⟨none, false⟩ : CbCall Bool) ∈ fileFilter req file := by
  have ha : allowedMime file = true := (allowedMime_iff file).2 h
  simp [fileFilter, ha]

/-- Witness for `fileFilter_allowed_also_rejects` at an `image/png` file. -/
theorem fileFilter_allowed_also_rejects_witness :
    fileFilter incomingReq ⟨"cat.png", "image/png"⟩ = [⟨none, true⟩, ⟨none, false⟩] ∧
      (⟨none, false⟩ : CbCall Bool) ∈ fileFilter incomingReq ⟨"cat.png", "image/png"⟩ :=
  fileFilter_allowed_also_rejects incomingReq ⟨"cat.png", "image/png"⟩ (Or.inl rfl)

/-- C2: for a file whose MIME type is none of `image/png`, `image/jpg`,
`image/jpeg`, `fileFilter` makes exactly one callback invocation, and every
invocation it makes carries a null error and `accept = false`. -/
theorem fileFilter_rejects_silently (req : Req) (file : UploadFile)
    (hpng : file.mimetype ≠ "image/png") (hjpg : file.mimetype ≠ "image/jpg")
    (hjpeg : file.mimetype ≠ "image/jpeg") :
    fileFilter req file = [⟨none, false⟩] ∧
      ∀ c ∈ fileFilter req file, c.err = none ∧ c.value = false := by
  have ha : allowedMime file = false := by
    simp [allowedMime, hpng, hjpg, hjpeg]
  simp [fileFilter, ha]

/-- Witness for `fileFilter_rejects_silently` at an `image/gif` file. -/
theorem fileFilter_rejects_silently_witness :
    fileFilter incomingReq ⟨"anim.gif", "image/gif"⟩ = [⟨none, false⟩] ∧
      ∀ c ∈ fileFilter incomingReq ⟨"anim.gif", "image/gif"⟩,
        c.err = none ∧ c.value = false :=
  fileFilter_rejects_silently incomingReq ⟨"anim.gif", "image/gif"⟩
    (by decide) (by decide) (by decide)

/-- C10 (the code departs from the claim): for a file whose MIME type is one
of the three allowed ones, `fileFilter` invokes its callback twice, not
once. -/
theorem fileFilter_allowed_calls_twice (req : Req) (file : UploadFile)
    (h : file.mimetype = "image/png" ∨ file.mimetype = "image/jpg" ∨
      file.mimetype = "image/jpeg") :
    (fileFilter req file).length = 2 ∧ (fileFilter req file).length ≠ 1 := by
  have ha : allowedMime file = true := (allowedMime_iff file).2 h
  simp [fileFilter, ha]

/-- Witness for `fileFilter_allowed_calls_twice` at an `image/jpeg` file. -/
theorem fileFilter_allowed_calls_twice_witness :
    (fileFilter incomingReq ⟨"photo.jpeg", "image/jpeg"⟩).length = 2 ∧
      (fileFilter incomingReq ⟨"photo.jpeg", "image/jpeg"⟩).length ≠ 1 :=
  fileFilter_allowed_calls_twice incomingReq ⟨"photo.jpeg", "image/jpeg"⟩
    (Or.inr (Or.inr rfl))

/-- C7: the stored name is the ISO time string, then `-`, then the original
name unchanged, delivered in a single callback with a null error; the
original name is a suffix of the stored name and differs from it; the
destination is `images` for every request and file. -/
theorem filename_timestamp_prefixed (isoNow : String) (req : Req) (file : UploadFile) :
    filename isoNow req file = [⟨none, isoNow ++ "-" ++ file.originalname⟩] ∧
      (∀ c ∈ filename isoNow req file,
        file.originalname.data <:+ c.value.data ∧ c.value ≠ file.originalname) ∧
      destination req file = [⟨none, "images"⟩] := by
  refine ⟨rfl, ?_, rfl⟩
  intro c hc
  simp only [filename, List.mem_singleton] at hc
  subst hc
  refine ⟨⟨(isoNow ++ "-").data, by simp [String.data_append]⟩, ?_⟩
  intro heq
  have hlen := congrArg String.length heq
  simp only [String.length_append] at hlen
  have hdash : "-".length = 1 := rfl
  omega

/-! ## Lemmas on the dispatcher -/

/-- Dispatch through no layers invokes nothing. -/
theorem run_nil (lib : Lib) (err : Option JsError) (req : Req) (res : Res) :
    run lib [] err req res = ⟨[], req, res, .exhausted err⟩ := rfl

/-- A layer that does not match, or whose kind does not fit the pending error,
is skipped. -/
theorem run_cons_skip (lib : Lib) (l : Layer) (rest : List Layer) (err : Option JsError)
    (req : Req) (res : Res)
    (h : (l.matchesReq lib req && (err.isSome == l.stage.isErrorHandler)) = false) :
    run lib (l :: rest) err req res = run lib rest err req res := by
  simp only [run, h]
  simp

/-- A layer that is invoked contributes the first event; the rest of the
dispatch follows its signal. -/
theorem run_cons_events (lib : Lib) (l : Layer) (rest : List Layer) (err : Option JsError)
    (req : Req) (res : Res)
    (h : (l.matchesReq lib req && (err.isSome == l.stage.isErrorHandler)) = true) :
    (run lib (l :: rest) err req res).events =
      ⟨l.stage, (invoke lib l.stage err req res).signal⟩ ::
        match (invoke lib l.stage err req res).signal with
        | .next e => (run lib rest e (invoke lib l.stage err req res).req
            (invoke lib l.stage err req res).res).events
        | .threw e => (run lib rest (some e) (invoke lib l.stage err req res).req
            (invoke lib l.stage err req res).res).events
        | .stop => [] := by
  simp only [run, h]
  simp only [if_true]
  cases hsig : (invoke lib l.stage err req res).signal <;> simp


/-- On a request that carries a session the error terminal sets status 500 and
renders the fixed `500` view, whatever the error. -/
theorem errorTerminal_with_session (error : JsError) (req : Req) (res : Res) (s : Session)
    (hs : req.session = some s) :
    errorTerminal error req res =
      ⟨req, { res with statusCode := 500,
                       rendered := some ⟨"500", "Error", "/500", s.isLoggedIn⟩ }, .stop⟩ := by
  simp [errorTerminal, hs]

/-- Only middlewares of the given layers are invoked. -/
theorem run_events_stage_mem (lib : Lib) :
    ∀ (layers : List Layer) (err : Option JsError) (req : Req) (res : Res) (ev : Event),
      ev ∈ (run lib layers err req res).events → ∃ l ∈ layers, l.stage = ev.stage := by
  intro layers
  induction layers with
  | nil => intro err req res ev h; simp [run_nil] at h
  | cons l rest ih =>
    intro err req res ev h
    cases hc : (l.matchesReq lib req && (err.isSome == l.stage.isErrorHandler)) with
    | false =>
      rw [run_cons_skip lib l rest err req res hc] at h
      obtain ⟨l', hl', hst⟩ := ih err req res ev h
      exact ⟨l', List.mem_cons_of_mem _ hl', hst⟩
    | true =>
      rw [run_cons_events lib l rest err req res hc, List.mem_cons] at h
      rcases h with h | h
      · exact ⟨l, List.mem_cons_self _ _, by rw [h]⟩
      · have hrest : ∃ l' ∈ rest, l'.stage = ev.stage := by
          cases hsig : (invoke lib l.stage err req res).signal with
          | next e => rw [hsig] at h; exact ih _ _ _ ev h
          | threw e => rw [hsig] at h; exact ih _ _ _ ev h
          | stop => rw [hsig] at h; simp at h
        obtain ⟨l', hl', hst⟩ := hrest
        exact ⟨l', List.mem_cons_of_mem _ hl', hst⟩

/-- With an error pending, a run of layers none of which is an error handler
is skipped as a whole. -/
theorem run_pending_error_skips (lib : Lib) (B : List Layer) (e : JsError) (req : Req)
    (res : Res) :
    ∀ (A : List Layer), (∀ l ∈ A, l.stage.isErrorHandler = false) →
      run lib (A ++ B) (some e) req res = run lib B (some e) req res := by
  intro A
  induction A with
  | nil => intro _; rfl
  | cons a A ih =>
    intro hA
    have ha : a.stage.isErrorHandler = false := hA a (List.mem_cons_self _ _)
    rw [List.cons_append, run_cons_skip lib a (A ++ B) (some e) req res (by simp [ha])]
    exact ih (fun l hl => hA l (List.mem_cons_of_mem _ hl))

/-- With an error pending, layers `B1` without error handlers followed by
layers `B2` without target stages invoke no target stage. -/
theorem run_pending_error_no_target (lib : Lib) (target : Stage → Bool)
    (B1 B2 : List Layer) (hB1 : ∀ l ∈ B1, l.stage.isErrorHandler = false)
    (hB2 : ∀ l ∈ B2, target l.stage = false) (e : JsError) (req : Req) (res : Res)
    (ev : Event) (h : ev ∈ (run lib (B1 ++ B2) (some e) req res).events) :
    target ev.stage = false := by
  rw [run_pending_error_skips lib B2 e req res B1 hB1] at h
  obtain ⟨l, hl, hst⟩ := run_events_stage_mem lib B2 (some e) req res ev h
  rw [← hst]
  exact hB2 l hl

/-- A guard layer `c` mounted at `/`, with no target stage before it and no
error handler between it and the target stages behind it: a target stage is
invoked only in a dispatch in which `c` was invoked and called `next()`. -/
theorem run_guarded (lib : Lib) (target : Stage → Bool) (c : Layer) (B1 B2 : List Layer)
    (hc1 : c.mount = "/") (hc2 : c.stage.isErrorHandler = false)
    (hc3 : target c.stage = false)
    (hB1 : ∀ l ∈ B1, l.stage.isErrorHandler = false)
    (hB2 : ∀ l ∈ B2, target l.stage = false) :
    ∀ (A : List Layer), (∀ l ∈ A, target l.stage = false) →
      ∀ (err : Option JsError) (req : Req) (res : Res) (ev : Event),
        ev ∈ (run lib (A ++ c :: (B1 ++ B2)) err req res).events → target ev.stage = true →
          (⟨c.stage, .next none⟩ : Event) ∈
            (run lib (A ++ c :: (B1 ++ B2)) err req res).events := by
  intro A
  induction A with
  | nil =>
    intro _ err req res ev h ht
    rw [List.nil_append] at h ⊢
    cases err with
    | some e =>
      rw [run_cons_skip lib c _ (some e) req res (by simp [hc2])] at h
      have := run_pending_error_no_target lib target B1 B2 hB1 hB2 e req res ev h
      rw [this] at ht; exact absurd ht (by decide)
    | none =>
      have hcond : (c.matchesReq lib req &&
          ((none : Option JsError).isSome == c.stage.isErrorHandler)) = true := by
        simp [Layer.matchesReq, hc1, hc2]
      rw [run_cons_events lib c _ none req res hcond] at h ⊢
      rw [List.mem_cons] at h
      rcases h with h | h
      · rw [h] at ht; simp [hc3] at ht
      · cases hsig : (invoke lib c.stage none req res).signal with
        | next e' =>
          cases e' with
          | none => exact List.mem_cons_self _ _
          | some x =>
            rw [hsig] at h
            have := run_pending_error_no_target lib target B1 B2 hB1 hB2 x _ _ ev h
            rw [this] at ht; exact absurd ht (by decide)
        | threw x =>
          rw [hsig] at h
          have := run_pending_error_no_target lib target B1 B2 hB1 hB2 x _ _ ev h
          rw [this] at ht; exact absurd ht (by decide)
        | stop => rw [hsig] at h; simp at h
  | cons a A ih =>
    intro hA err req res ev h ht
    have ha : target a.stage = false := hA a (List.mem_cons_self _ _)
    have hA' : ∀ l ∈ A, target l.stage = false := fun l hl => hA l (List.mem_cons_of_mem _ hl)
    rw [List.cons_append] at h ⊢
    cases hc : (a.matchesReq lib req && (err.isSome == a.stage.isErrorHandler)) with
    | false =>
      rw [run_cons_skip lib a _ err req res hc] at h ⊢
      exact ih hA' err req res ev h ht
    | true =>
      rw [run_cons_events lib a _ err req res hc] at h ⊢
      rw [List.mem_cons] at h
      rcases h with h | h
      · rw [h] at ht; simp [ha] at ht
      · apply List.mem_cons_of_mem
        cases hsig : (invoke lib a.stage err req res).signal with
        | next e' => rw [hsig] at h; exact ih hA' _ _ _ ev h ht
        | threw x => rw [hsig] at h; exact ih hA' _ _ _ ev h ht
        | stop => rw [hsig] at h; simp at h


/-! ## Theorems: middlewares and pipeline -/


/-- C3: for a request with a session and a lookup that does not fail, the
user hydrator calls `next()` with no argument and leaves the response alone;
on a request that arrived without `req.user`, `req.user` is a record exactly
when the session references a user and the lookup by that user's id returned
that record, and the rest of the request is unchanged. -/
theorem userHydrator_attaches_iff_found (findById : JsVal → Settled (Option User))
    (req : Req) (res : Res) (s : Session) (hs : req.session = some s)
    (hu : req.user = none)
    (hok : ∀ su err, s.user = some su → findById su._id ≠ .rejected err) :
    (userHydrator findById req res).signal = .next none ∧
      (userHydrator findById req res).res = res ∧
      (∀ record, (userHydrator findById req res).req.user = some record ↔
        ∃ su, s.user = some su ∧ findById su._id = .resolved (some record)) ∧
      ((userHydrator findById req res).req.user = none ↔
        (s.user = none ∨ ∃ su, s.user = some su ∧ findById su._id = .resolved none)) ∧
      (userHydrator findById req res).req.session = req.session ∧
      (userHydrator findById req res).req.csrfToken = req.csrfToken ∧
      (userHydrator findById req res).req.path = req.path := by
  cases hsu : s.user with
  | none =>
    have hstep : userHydrator findById req res = ⟨req, res, .next none⟩ := by
      simp [userHydrator, hs, hsu]
    rw [hstep]
    simp [hu]
  | some su =>
    cases hf : findById su._id with
    | rejected err => exact absurd hf (hok su err hsu)
    | resolved r =>
      cases r with
      | none =>
        have hstep : userHydrator findById req res = ⟨req, res, .next none⟩ := by
          simp [userHydrator, hs, hsu, hf]
        rw [hstep]
        simp [hu, hf]
      | some user =>
        have hstep : userHydrator findById req res =
            ⟨{ req with user := some user }, res, .next none⟩ := by
          simp [userHydrator, hs, hsu, hf]
        rw [hstep]
        simp [hf]

/-- Witness for `userHydrator_attaches_iff_found`: a session referencing the
user `u1`, whom the sample database holds. -/
theorem userHydrator_attaches_iff_found_witness :
    (userHydrator sampleLib.findById
        { incomingReq with session := some loggedInSession } freshRes).signal
      = .next none ∧
    (userHydrator sampleLib.findById
        { incomingReq with session := some loggedInSession } freshRes).req.user
      = some sampleUser := by
  have h := userHydrator_attaches_iff_found sampleLib.findById
    { incomingReq with session := some loggedInSession } freshRes
    loggedInSession rfl rfl
    (by intro su err _; simp only [sampleLib]; split <;> simp)
  exact ⟨h.1, (h.2.2.1 sampleUser).2 ⟨⟨.str "u1"⟩, rfl, by decide⟩⟩

/-- C4: when the session references a user and the lookup by that user's id
fails with `err`, the user hydrator leaves request and response as they are
and calls `next(new Error(err))`; dispatching from the user hydrator on, the
route handlers are skipped, the error terminal is the only other middleware
invoked, and the response ends with status 500 and the `500` view. -/
theorem userHydrator_lookup_error_renders_500 (lib : Lib) (req : Req) (res : Res)
    (s : Session) (su : SessionUser) (err : JsError)
    (hs : req.session = some s) (hsu : s.user = some su)
    (hf : lib.findById su._id = .rejected err) :
    userHydrator lib.findById req res = ⟨req, res, .next (some (newError err))⟩ ∧
      (run lib (pipelineFrom .userHydrator) none req res).events =
        [⟨.userHydrator, .next (some (newError err))⟩, ⟨.errorTerminal, .stop⟩] ∧
      (run lib (pipelineFrom .userHydrator) none req res).req.user = req.user ∧
      (run lib (pipelineFrom .userHydrator) none req res).res.statusCode = 500 ∧
      (run lib (pipelineFrom .userHydrator) none req res).res.rendered =
        some ⟨"500", "Error", "/500", s.isLoggedIn⟩ ∧
      (run lib (pipelineFrom .userHydrator) none req res).ending = .stopped := by
  have hstep : userHydrator lib.findById req res = ⟨req, res, .next (some (newError err))⟩ := by
    simp [userHydrator, hs, hsu, hf]
  have hfrom : pipelineFrom .userHydrator =
      [⟨"/", .userHydrator⟩, ⟨"/admin", .adminRoutes⟩, ⟨"/", .shopRoutes⟩,
        ⟨"/", .authRoutes⟩, ⟨"/500", .get500⟩, ⟨"/", .get404⟩, ⟨"/", .errorTerminal⟩] := by
    decide
  refine ⟨hstep, ?_⟩
  rw [hfrom]
  simp [run, invoke, hstep, errorTerminal, hs, Layer.matchesReq, Stage.isErrorHandler, Stage.arity,
    importedArity]

/-- Witness for `userHydrator_lookup_error_renders_500`: a logged-in session
and a database that is down. -/
theorem userHydrator_lookup_error_renders_500_witness :
    (run dbDownLib (pipelineFrom .userHydrator) none
        { incomingReq with session := some loggedInSession } freshRes).res.statusCode
      = 500 ∧
    (run dbDownLib (pipelineFrom .userHydrator) none
        { incomingReq with session := some loggedInSession } freshRes).res.rendered
      = some ⟨"500", "Error", "/500", .bool true⟩ := by
  have h := userHydrator_lookup_error_renders_500 dbDownLib
    { incomingReq with session := some loggedInSession } freshRes
    loggedInSession ⟨.str "u1"⟩ ⟨"MongoError", "connection lost"⟩ rfl rfl rfl
  exact ⟨h.2.2.2.1, h.2.2.2.2.1⟩

/-- C5 (the code departs from the claim): on a request that carries no
session object the error terminal sets status 500 and then throws a
`TypeError` while reading `req.session.isLoggedIn`; `render` is never called,
and dispatch ends with that `TypeError` left to Express's final handler. -/
theorem errorTerminal_without_session_throws (lib : Lib) (error : JsError) (req : Req)
    (res : Res) (hs : req.session = none) :
    errorTerminal error req res =
        ⟨req, { res with statusCode := 500 }, .threw (typeErrorReading "isLoggedIn")⟩ ∧
      (errorTerminal error req res).res.rendered = res.rendered ∧
      (run lib (pipelineFrom .errorTerminal) (some error) req res).ending =
        .exhausted (some (typeErrorReading "isLoggedIn")) := by
  have hstep : errorTerminal error req res =
      ⟨req, { res with statusCode := 500 }, .threw (typeErrorReading "isLoggedIn")⟩ := by
    simp [errorTerminal, hs]
  have hfrom : pipelineFrom .errorTerminal = [⟨"/", .errorTerminal⟩] := by decide
  refine ⟨hstep, by rw [hstep], ?_⟩
  rw [hfrom]
  simp [run, invoke, hstep, Layer.matchesReq, Stage.isErrorHandler, Stage.arity,
    importedArity]

/-- Witness for `errorTerminal_without_session_throws`: an upload error, raised
before the session middleware has run. -/
theorem errorTerminal_without_session_throws_witness :
    (errorTerminal ⟨"MulterError", "Unexpected field"⟩ incomingReq freshRes).signal =
        .threw (typeErrorReading "isLoggedIn") ∧
      (errorTerminal ⟨"MulterError", "Unexpected field"⟩ incomingReq freshRes).res.rendered =
        none := by
  have h := errorTerminal_without_session_throws sampleLib
    ⟨"MulterError", "Unexpected field"⟩ incomingReq freshRes rfl
  exact ⟨by rw [h.1], h.2.1⟩

/-- The whole pipeline on a request whose upload fails: the error terminal is
reached with no session on the request, throws, and renders nothing. -/
theorem upload_error_pipeline_run :
    (run uploadFailsLib pipeline none incomingReq freshRes).events.getLast? =
        some ⟨.errorTerminal, .threw (typeErrorReading "isLoggedIn")⟩ ∧
      (run uploadFailsLib pipeline none incomingReq freshRes).res.rendered = none ∧
      (run uploadFailsLib pipeline none incomingReq freshRes).res.statusCode = 500 ∧
      (run uploadFailsLib pipeline none incomingReq freshRes).ending =
        .exhausted (some (typeErrorReading "isLoggedIn")) := by
  decide


/-- C6 as stated fails: on a request whose session was just created, the
view-local injector sets `isAuthenticated` to `undefined`, which is not the
boolean `false`. -/
theorem viewLocals_fresh_session_not_boolean_false :
    (viewLocals { incomingReq with session := some freshSession, csrfToken := some "token" }
        freshRes).res.localIsAuthenticated = some .undefined ∧
      (viewLocals { incomingReq with session := some freshSession, csrfToken := some "token" }
        freshRes).res.localIsAuthenticated ≠ some (.bool false) := by
  decide

/-- C6, amended: on a request whose session has never had `isLoggedIn`
written, the view-local injector sets the template local `isAuthenticated` to
the session's `isLoggedIn` value, which is `undefined`, a falsy value; with
the CSRF function attached it also sets `csrfToken` and calls `next()`. -/
theorem viewLocals_fresh_session_falsy (req : Req) (res : Res) (s : Session)
    (hs : req.session = some s) (hfresh : s.isLoggedIn = .undefined) :
    (viewLocals req res).res.localIsAuthenticated = some .undefined ∧
      (∀ v, (viewLocals req res).res.localIsAuthenticated = some v → v.truthy = false) ∧
      (∀ token, req.csrfToken = some token →
        viewLocals req res =
          ⟨req, { res with localIsAuthenticated := some .undefined,
                           localCsrfToken := some token }, .next none⟩) := by
  have hloc : (viewLocals req res).res.localIsAuthenticated = some .undefined := by
    unfold viewLocals
    rw [hs]
    cases req.csrfToken <;> simp [hfresh]
  refine ⟨hloc, ?_, ?_⟩
  · intro v hv
    rw [hloc] at hv
    cases hv
    rfl
  · intro token ht
    simp [viewLocals, hs, ht, hfresh]

/-- Witness for `viewLocals_fresh_session_falsy`: the session the session
middleware creates for a request without a cookie. -/
theorem viewLocals_fresh_session_falsy_witness :
    (viewLocals { incomingReq with session := some freshSession, csrfToken := some "token" }
        freshRes).res.localIsAuthenticated = some .undefined :=
  (viewLocals_fresh_session_falsy
    { incomingReq with session := some freshSession, csrfToken := some "token" }
    freshRes freshSession rfl rfl).1

/-- C8: in the registered pipeline the CSRF guard comes after the session
middleware and before the view-local injector, the user hydrator and every
route handler; the spec's stage numbers along the pipeline are non-decreasing
and are exactly 1 to 12; and in every dispatch through the pipeline, whatever
the third-party middlewares do, a view-local injector, user hydrator or route
handler is invoked only if the CSRF guard was invoked and called `next()`
without an error. -/
theorem csrf_guard_precedes_routes :
    stageIndex .session < stageIndex .csrfProtection ∧
      (∀ s : Stage, (s.isRoute = true ∨ s = .viewLocals ∨ s = .userHydrator) →
        stageIndex .csrfProtection < stageIndex s) ∧
      (pipeline.map Layer.stage).Nodup ∧
      (pipeline.map (fun l => l.stage.specStage)).Sorted (· ≤ ·) ∧
      (pipeline.map (fun l => l.stage.specStage)).dedup = List.range' 1 12 ∧
      (∀ (lib : Lib) (err : Option JsError) (req : Req) (res : Res) (ev : Event),
        ev ∈ (run lib pipeline err req res).events →
        (ev.stage.isRoute = true ∨ ev.stage = .viewLocals ∨ ev.stage = .userHydrator) →
        (⟨.csrfProtection, .next none⟩ : Event) ∈ (run lib pipeline err req res).events) := by
  refine ⟨by decide, ?_, by decide, by decide, by decide, ?_⟩
  · intro s hs
    cases s <;> first | decide | simp [Stage.isRoute] at hs
  · intro lib err req res ev hev hst
    have hsplit : pipeline =
        [⟨"/", .helmet⟩, ⟨"/", .compression⟩, ⟨"/", .morgan⟩, ⟨"/", .urlencoded⟩,
          ⟨"/", .multerSingle⟩, ⟨"/", .staticPublic⟩, ⟨"/images", .staticImages⟩,
          ⟨"/", .session⟩] ++ ⟨"/", .csrfProtection⟩ ::
        ([⟨"/", .flash⟩, ⟨"/", .viewLocals⟩, ⟨"/", .userHydrator⟩, ⟨"/admin", .adminRoutes⟩,
          ⟨"/", .shopRoutes⟩, ⟨"/", .authRoutes⟩, ⟨"/500", .get500⟩, ⟨"/", .get404⟩] ++
          [⟨"/", .errorTerminal⟩]) := rfl
    have htarget : (ev.stage.isRoute || ev.stage == .viewLocals || ev.stage == .userHydrator)
        = true := by
      rcases hst with h | h | h <;> simp [h]
    rw [hsplit] at hev ⊢
    exact run_guarded lib (fun s => s.isRoute || s == .viewLocals || s == .userHydrator)
      ⟨"/", .csrfProtection⟩ _ _ rfl rfl rfl (by decide) (by decide) _ (by decide)
      err req res ev hev htarget

/-- Witness for `csrf_guard_precedes_routes`: in the sample dispatch the shop
router is reached, and the CSRF guard was passed first. -/
theorem csrf_guard_precedes_routes_witness :
    (⟨.shopRoutes, .stop⟩ : Event) ∈ (run sampleLib pipeline none incomingReq freshRes).events ∧
      (⟨.csrfProtection, .next none⟩ : Event) ∈
        (run sampleLib pipeline none incomingReq freshRes).events :=
  ⟨by decide, csrf_guard_precedes_routes.2.2.2.2.2 sampleLib none incomingReq freshRes
    ⟨.shopRoutes, .stop⟩ (by decide) (Or.inl rfl)⟩

/-! ## Theorems: startup -/

/-- C9 as stated fails: with `PORT` set to the empty string the connection
succeeds and the listener is bound on 3000, not on the value of `PORT`. -/
theorem startup_empty_port_listens_on_3000 :
    Effect.listen (.num 3000) ∈
        startup ⟨some "u", some "p", some "shop", some ""⟩ (.resolved ()) none ∧
      Effect.listen (.str "") ∉
        startup ⟨some "u", some "p", some "shop", some ""⟩ (.resolved ()) none := by
  decide

/-- C9, amended: `mongoose.connect` is called exactly once; `app.listen` is
called if and only if that attempt succeeds, and then once, with the value of
`PORT` when that variable is set to a non-empty string and with 3000 when it
is not set or is the empty string; when the attempt fails the error is logged
and `listen` is never called. -/
theorem startup_connect_then_listen (env : Env) (connected : Settled Unit)
    (listenThrows : Option JsError) :
    (startup env connected listenThrows).filter Effect.isConnect =
        [.connect (MONGODB_URI env)] ∧
      ((∃ port, Effect.listen port ∈ startup env connected listenThrows) ↔
        ∃ u, connected = .resolved u) ∧
      (∀ u, connected = .resolved u →
        (startup env connected listenThrows).filter Effect.isListen =
          [.listen (listenPort env)]) ∧
      (∀ p, env.PORT = some p → p ≠ "" → listenPort env = .str p) ∧
      (env.PORT = none ∨ env.PORT = some "" → listenPort env = .num 3000) ∧
      (∀ err, connected = .rejected err →
        Effect.consoleLogError err ∈ startup env connected listenThrows ∧
        (startup env connected listenThrows).filter Effect.isListen = []) := by
  refine ⟨?_, ?_, ?_, ?_, ?_, ?_⟩
  · cases connected <;> cases listenThrows <;> simp [startup, Effect.isConnect]
  · cases connected <;> cases listenThrows <;> simp [startup]
  · intro u hu
    subst hu
    cases listenThrows <;> simp [startup, Effect.isConnect, Effect.isListen]
  · intro p hp hne
    simp [listenPort, hp, envVal, JsVal.or, JsVal.truthy, hne]
  · rintro (hp | hp) <;> simp [listenPort, hp, envVal, JsVal.or, JsVal.truthy]
  · intro err herr
    subst herr
    simp [startup, Effect.isListen]

end AppJs
